import Mathlib

/-!
Shallow embedding of the MathGen quiz frontend.

The model follows `src/frontend/src/MathTutor.jsx` (the `MathTutor`
component: `fetchQuestion` and `submitAnswer`) and the toast notifier
`useToast` from `src/frontend/src/components/ui/card.tsx`.

JavaScript values arriving from the network are modelled by an inductive
`Json` type, with JS truthiness (`!x`) and the type tests
(`typeof x === "boolean"`, `Array.isArray(x)`) made explicit.  A network
round trip is an oracle value `NetResult`: either a transport error
(rejected fetch / JSON parse failure) or a reply with an HTTP status and
a parsed body; `response.ok` is `200 ≤ status < 300`.

The handlers are state transformers.  `submitAnswer` does not commit
feedback synchronously: on a valid 2xx reply it returns a `scheduled`
payload, and `submitStateAt` gives the observable component state `t`
milliseconds after the response settles, committing the payload and
clearing `loading` only once `submitDelay` (5000 ms) has elapsed —
mirroring the `setTimeout(..., 5000)` in the source.  Toast dismissal
timers are modelled the same way by `applyToastTimer`.
-/

/-- Parsed JSON values as delivered by the backend. -/
inductive Json where
  | null : Json
  | bool : Bool → Json
  | num : Int → Json
  | str : String → Json
  | arr : List Json → Json
  | obj : List (String × Json) → Json

/-- JavaScript truthiness of a defined value. -/
def truthy : Json → Bool
  | .null => false
  | .bool b => b
  | .num n => n != 0
  | .str s => s != ""
  | .arr _ => true
  | .obj _ => true

/-- Property access `j.k`: `none` models JS `undefined`. -/
def getField (j : Json) (k : String) : Option Json :=
  match j with
  | .obj fs => fs.lookup k
  | _ => none

/-- Truthiness of a possibly-undefined value (`undefined` is falsy). -/
def truthyOpt : Option Json → Bool
  | none => false
  | some j => truthy j

/-- `Array.isArray(x)` on a possibly-undefined value. -/
def isArrayField : Option Json → Bool
  | some (.arr _) => true
  | _ => false

/-- `typeof x === "boolean"` on a possibly-undefined value. -/
def isBoolField : Option Json → Bool
  | some (.bool _) => true
  | _ => false

/-- One entry of the toast notifier list (`useToast` in card.tsx). -/
structure Toast where
  id : String
  title : String
  description : String
  variant : String
  deriving DecidableEq, Repr

/-- The `MathTutor` component state: the six `useState` hooks of
MathTutor.jsx plus the toast list owned by `useToast`. -/
structure TutorState where
  topic : String
  difficulty : String
  question : Option Json
  selectedAnswer : String
  feedback : Option Json
  loading : Bool
  toasts : List Toast

/-- Outcome of a `fetch` round trip: a transport-level failure (rejected
promise or unparsable body) or a reply with HTTP status and parsed body. -/
inductive NetResult where
  | transportError : NetResult
  | reply : Nat → Json → NetResult

/-- `response.ok`: status in the inclusive range 200–299. -/
def statusOk (status : Nat) : Bool :=
  200 ≤ status && status < 300

/-- Validation in `fetchQuestion`:
`!data.id || !data.question_text || !Array.isArray(data.options)` throws. -/
def validQuestion (data : Json) : Bool :=
  truthyOpt (getField data "id") && truthyOpt (getField data "question_text")
    && isArrayField (getField data "options")

/-- Validation in `submitAnswer`:
`typeof data.is_correct !== "boolean" || !Array.isArray(data.solution_steps)` throws. -/
def validFeedback (data : Json) : Bool :=
  isBoolField (getField data "is_correct") && isArrayField (getField data "solution_steps")

/-- Delay before a scheduled toast removal fires (`setTimeout(..., 5000)`). -/
def toastDismissDelay : Nat := 5000

/-- The `toast` callback of `useToast`: append an entry with the given
fresh identifier to the end of the list. -/
def enqueueToast (s : TutorState) (tid title desc variant : String) : TutorState :=
  { s with toasts := s.toasts ++ [⟨tid, title, desc, variant⟩] }

/-- The removal scheduled by `toast`: keep exactly the entries whose id
differs (`prevToasts.filter((toast) => toast.id !== id)`). -/
def toastTimerFire (ts : List Toast) (tid : String) : List Toast :=
  ts.filter (fun t => t.id != tid)

/-- The toast-dismissal timer firing against the component state. -/
def applyToastTimer (s : TutorState) (tid : String) : TutorState :=
  { s with toasts := toastTimerFire s.toasts tid }

/-- `handleError`: log (ignored here) and raise a destructive error toast. -/
def handleError (s : TutorState) (tid msg : String) : TutorState :=
  enqueueToast s tid "Error" msg "destructive"

/-- Result of one `fetchQuestion` invocation: the settled state and
whether the network was reached. -/
structure FetchResult where
  state : TutorState
  networkCalled : Bool

/-- The guard of `fetchQuestion`: `if (!topic || !difficulty)` fails. -/
def fetchPre (s : TutorState) : Bool :=
  s.topic != "" && s.difficulty != ""

/-- `fetchQuestion` from MathTutor.jsx, as a state transformer over the
network oracle `net` and the fresh toast identifier `tid`. -/
def fetchQuestion (s : TutorState) (net : NetResult) (tid : String) : FetchResult :=
  if !fetchPre s then
    { state := enqueueToast s tid "Invalid Input"
        "Please select both topic and difficulty" "destructive",
      networkCalled := false }
  else
    let s1 := { s with loading := true }
    let s2 :=
      match net with
      | .transportError =>
          handleError s1 tid "Failed to fetch question. Please try again."
      | .reply status body =>
          if !statusOk status then
            handleError s1 tid "Failed to fetch question. Please try again."
          else if !validQuestion body then
            handleError s1 tid "Failed to fetch question. Please try again."
          else
            { s1 with question := some body, selectedAnswer := "", feedback := none }
    { state := { s2 with loading := false }, networkCalled := true }

/-- Result of one `submitAnswer` invocation: the state once the handler
settles, whether the network was reached, and the feedback payload whose
commit was scheduled by `setTimeout` (if any). -/
structure SubmitResult where
  state : TutorState
  networkCalled : Bool
  scheduled : Option Json

/-- Delay before scheduled feedback is committed (`setTimeout(..., 5000)`). -/
def submitDelay : Nat := 5000

/-- The guard of `submitAnswer`: `if (!question?.id || !selectedAnswer)` fails. -/
def submitPre (s : TutorState) : Bool :=
  truthyOpt (s.question.bind (fun q => getField q "id")) && s.selectedAnswer != ""

/-- `submitAnswer` from MathTutor.jsx.  On a valid 2xx reply the
feedback commit and the clearing of `loading` are only scheduled; every
error path clears `loading` immediately after raising the toast. -/
def submitAnswer (s : TutorState) (net : NetResult) (tid : String) : SubmitResult :=
  if !submitPre s then
    { state := enqueueToast s tid "Invalid Submission"
        "Please select an answer before submitting" "destructive",
      networkCalled := false, scheduled := none }
  else
    let s1 := { s with loading := true }
    match net with
    | .transportError =>
        { state := { (handleError s1 tid "Failed to submit answer. Please try again.") with
            loading := false },
          networkCalled := true, scheduled := none }
    | .reply status body =>
        if !statusOk status then
          { state := { (handleError s1 tid "Failed to submit answer. Please try again.") with
              loading := false },
            networkCalled := true, scheduled := none }
        else if !validFeedback body then
          { state := { (handleError s1 tid "Failed to submit answer. Please try again.") with
              loading := false },
            networkCalled := true, scheduled := none }
        else
          { state := s1, networkCalled := true, scheduled := some body }

/-- Observable component state `t` milliseconds after the submit response
settled: a scheduled payload is committed, and `loading` cleared, once
`submitDelay` has elapsed. -/
def submitStateAt (r : SubmitResult) (t : Nat) : TutorState :=
  match r.scheduled with
  | none => r.state
  | some d =>
      if t < submitDelay then r.state
      else { r.state with feedback := some d, loading := false }

/-- `net` makes `fetchQuestion` fail after reaching the network: transport
error, non-2xx status, or malformed question payload. -/
def fetchNetFails : NetResult → Bool
  | .transportError => true
  | .reply status body => !statusOk status || !validQuestion body

/-- `net` makes `submitAnswer` fail after reaching the network: transport
error, non-2xx status, or malformed feedback payload. -/
def submitNetFails : NetResult → Bool
  | .transportError => true
  | .reply status body => !statusOk status || !validFeedback body

/-! ### Concrete states and payloads used by the witnesses -/

/-- A state with topic and difficulty selected, no question yet. -/
def readyState : TutorState :=
  ⟨"algebra", "beginner", none, "", none, false, []⟩

/-- A well-formed question payload as in the spec scenario. -/
def sampleQuestion : Json :=
  .obj [("id", .num 1), ("question_text", .str "2+2=?"),
        ("options", .arr [.obj [("text", .str "3")], .obj [("text", .str "4")]])]

/-- A state holding `sampleQuestion` with the answer "4" selected. -/
def answeredState : TutorState :=
  ⟨"algebra", "beginner", some sampleQuestion, "4", none, false, []⟩

/-- A well-formed feedback payload as in the spec scenario. -/
def goodFeedback : Json :=
  .obj [("is_correct", .bool true), ("explanation", .str "2+2=4"),
        ("solution_steps", .arr [.str "Add 2 and 2"])]

/-- A feedback payload with a non-boolean correctness flag. -/
def badFeedback : Json :=
  .obj [("is_correct", .str "yes"), ("solution_steps", .arr [])]

/-! ### Claim theorems -/

/-- C1: for every Submit Answer invocation whose response is 2xx with a
boolean `is_correct` and an array `solution_steps`, the feedback state is
not committed before 5000 ms have elapsed and `loading` stays true
throughout that interval; once the 5-second delay has elapsed the
feedback is committed and `loading` is cleared. -/
theorem submitAnswer_valid_delays_feedback
    (s : TutorState) (status : Nat) (body : Json) (tid : String)
    (hpre : submitPre s = true) (hok : statusOk status = true)
    (hval : validFeedback body = true) :
    (∀ t, t < 5000 →
      (submitStateAt (submitAnswer s (.reply status body) tid) t).feedback = s.feedback ∧
      (submitStateAt (submitAnswer s (.reply status body) tid) t).loading = true) ∧
    (∀ t, 5000 ≤ t →
      (submitStateAt (submitAnswer s (.reply status body) tid) t).feedback = some body ∧
      (submitStateAt (submitAnswer s (.reply status body) tid) t).loading = false) := by
  unfold submitAnswer submitStateAt
  simp [hpre, hok, hval, submitDelay]
  constructor
  · intro t ht
    simp [ht]
  · intro t ht
    have hnot : ¬ t < 5000 := by omega
    simp [hnot]

/-- Witness for C1 at the spec scenario: answer "4" to the sample
question, reply 200 with a valid feedback payload. -/
theorem submitAnswer_valid_delays_feedback_witness :
    (submitStateAt (submitAnswer answeredState (.reply 200 goodFeedback) "t1") 0).loading = true ∧
    (submitStateAt (submitAnswer answeredState (.reply 200 goodFeedback) "t1") 4999).feedback = none ∧
    (submitStateAt (submitAnswer answeredState (.reply 200 goodFeedback) "t1") 5000).feedback
      = some goodFeedback ∧
    (submitStateAt (submitAnswer answeredState (.reply 200 goodFeedback) "t1") 5000).loading = false := by
  have h := submitAnswer_valid_delays_feedback answeredState 200 goodFeedback "t1"
    (by rfl) (by rfl) (by rfl)
  exact ⟨(h.1 0 (by norm_num)).2, (h.1 4999 (by norm_num)).1,
    (h.2 5000 (by norm_num)).1, (h.2 5000 (by norm_num)).2⟩

/-- C2: on a response whose payload has a non-boolean `is_correct` or a
non-array `solution_steps`, `submitAnswer` raises the error toast,
commits no feedback, schedules nothing, and clears `loading` immediately
(the observable state never changes afterwards). -/
theorem submitAnswer_invalid_payload_immediate
    (s : TutorState) (status : Nat) (body : Json) (tid : String)
    (hpre : submitPre s = true) (hok : statusOk status = true)
    (hval : validFeedback body = false) :
    (submitAnswer s (.reply status body) tid).scheduled = none ∧
    (submitAnswer s (.reply status body) tid).state.feedback = s.feedback ∧
    (submitAnswer s (.reply status body) tid).state.loading = false ∧
    (submitAnswer s (.reply status body) tid).state.toasts =
      s.toasts ++ [⟨tid, "Error", "Failed to submit answer. Please try again.", "destructive"⟩] ∧
    (∀ t, submitStateAt (submitAnswer s (.reply status body) tid) t =
      (submitAnswer s (.reply status body) tid).state) := by
  unfold submitAnswer
  simp [hpre, hok, hval, handleError, enqueueToast, submitStateAt]

/-- Witness for C2: a 200 reply whose `is_correct` is the string "yes". -/
theorem submitAnswer_invalid_payload_immediate_witness :
    (submitAnswer answeredState (.reply 200 badFeedback) "t2").scheduled = none ∧
    (submitAnswer answeredState (.reply 200 badFeedback) "t2").state.loading = false ∧
    (submitAnswer answeredState (.reply 200 badFeedback) "t2").state.feedback = none := by
  have h := submitAnswer_invalid_payload_immediate answeredState 200 badFeedback "t2"
    (by rfl) (by rfl) (by rfl)
  exact ⟨h.1, h.2.2.1, h.2.1⟩

/-- C3: for every Request Question invocation that fails after reaching
the network (transport error, non-2xx status, or malformed question
payload), the controller appends the retry error toast, leaves the
question state unchanged, and `loading` is false once the request
settles. -/
theorem fetchQuestion_failure_preserves_question
    (s : TutorState) (net : NetResult) (tid : String)
    (hpre : fetchPre s = true) (hfail : fetchNetFails net = true) :
    (fetchQuestion s net tid).state.question = s.question ∧
    (fetchQuestion s net tid).state.loading = false ∧
    (fetchQuestion s net tid).state.toasts =
      s.toasts ++ [⟨tid, "Error", "Failed to fetch question. Please try again.", "destructive"⟩] := by
  unfold fetchQuestion
  cases net with
  | transportError =>
      simp [hpre, handleError, enqueueToast]
  | reply status body =>
      simp only [fetchNetFails, Bool.or_eq_true, Bool.not_eq_true'] at hfail
      rcases hfail with hst | hbody
      · simp [hpre, hst, handleError, enqueueToast]
      · cases hst : statusOk status <;>
          simp [hpre, hst, hbody, handleError, enqueueToast]

/-- Witness for C3: a transport error on a ready selection. -/
theorem fetchQuestion_failure_preserves_question_witness :
    (fetchQuestion readyState .transportError "t3").state.question = none ∧
    (fetchQuestion readyState .transportError "t3").state.loading = false := by
  have h := fetchQuestion_failure_preserves_question readyState .transportError "t3"
    (by rfl) (by rfl)
  exact ⟨h.1, h.2.1⟩

/-- C4: on a 2xx reply whose payload has a truthy `id`, truthy
`question_text` and an array `options`, `fetchQuestion` replaces the
question state with the payload and clears the selected answer and any
previous feedback. -/
theorem fetchQuestion_valid_replaces_question
    (s : TutorState) (status : Nat) (body : Json) (tid : String)
    (hpre : fetchPre s = true) (hok : statusOk status = true)
    (hval : validQuestion body = true) :
    (fetchQuestion s (.reply status body) tid).state.question = some body ∧
    (fetchQuestion s (.reply status body) tid).state.selectedAnswer = "" ∧
    (fetchQuestion s (.reply status body) tid).state.feedback = none := by
  unfold fetchQuestion
  simp [hpre, hok, hval]

/-- Witness for C4: from a state with a stale answer and feedback, a 200
reply carrying the sample question. -/
theorem fetchQuestion_valid_replaces_question_witness :
    (fetchQuestion ⟨"algebra", "beginner", some sampleQuestion, "3", some goodFeedback, false, []⟩
      (.reply 200 sampleQuestion) "t4").state.question = some sampleQuestion ∧
    (fetchQuestion ⟨"algebra", "beginner", some sampleQuestion, "3", some goodFeedback, false, []⟩
      (.reply 200 sampleQuestion) "t4").state.selectedAnswer = "" ∧
    (fetchQuestion ⟨"algebra", "beginner", some sampleQuestion, "3", some goodFeedback, false, []⟩
      (.reply 200 sampleQuestion) "t4").state.feedback = none := by
  exact fetchQuestion_valid_replaces_question
    ⟨"algebra", "beginner", some sampleQuestion, "3", some goodFeedback, false, []⟩
    200 sampleQuestion "t4" (by rfl) (by rfl) (by rfl)

/-- C5: when topic or difficulty is unset, `fetchQuestion` performs no
network call, appends the validation toast, and leaves question,
selected answer, feedback and loading unchanged. -/
theorem fetchQuestion_missing_selection_no_network
    (s : TutorState) (net : NetResult) (tid : String)
    (hpre : fetchPre s = false) :
    (fetchQuestion s net tid).networkCalled = false ∧
    (fetchQuestion s net tid).state.toasts =
      s.toasts ++ [⟨tid, "Invalid Input", "Please select both topic and difficulty", "destructive"⟩] ∧
    (fetchQuestion s net tid).state.question = s.question ∧
    (fetchQuestion s net tid).state.selectedAnswer = s.selectedAnswer ∧
    (fetchQuestion s net tid).state.feedback = s.feedback ∧
    (fetchQuestion s net tid).state.loading = s.loading := by
  unfold fetchQuestion
  simp [hpre, enqueueToast]

/-- Witness for C5: empty difficulty. -/
theorem fetchQuestion_missing_selection_no_network_witness :
    (fetchQuestion ⟨"algebra", "", none, "", none, false, []⟩ .transportError "t5").networkCalled
      = false ∧
    (fetchQuestion ⟨"algebra", "", none, "", none, false, []⟩ .transportError "t5").state.loading
      = false := by
  have h := fetchQuestion_missing_selection_no_network
    ⟨"algebra", "", none, "", none, false, []⟩ .transportError "t5" (by rfl)
  exact ⟨h.1, by rw [h.2.2.2.2.2]⟩

/-- C6: with no active question (or a falsy question id) or no selected
answer, `submitAnswer` performs no network call, appends the validation
toast, schedules nothing, and leaves question, selected answer, feedback
and loading unchanged. -/
theorem submitAnswer_missing_precondition_no_network
    (s : TutorState) (net : NetResult) (tid : String)
    (hpre : submitPre s = false) :
    (submitAnswer s net tid).networkCalled = false ∧
    (submitAnswer s net tid).scheduled = none ∧
    (submitAnswer s net tid).state.toasts =
      s.toasts ++ [⟨tid, "Invalid Submission", "Please select an answer before submitting", "destructive"⟩] ∧
    (submitAnswer s net tid).state.question = s.question ∧
    (submitAnswer s net tid).state.selectedAnswer = s.selectedAnswer ∧
    (submitAnswer s net tid).state.feedback = s.feedback ∧
    (submitAnswer s net tid).state.loading = s.loading := by
  unfold submitAnswer
  simp [hpre, enqueueToast]

/-- Witness for C6: a question is displayed but no answer is selected. -/
theorem submitAnswer_missing_precondition_no_network_witness :
    (submitAnswer ⟨"algebra", "beginner", some sampleQuestion, "", none, false, []⟩
      .transportError "t6").networkCalled = false ∧
    (submitAnswer ⟨"algebra", "beginner", some sampleQuestion, "", none, false, []⟩
      .transportError "t6").scheduled = none := by
  have h := submitAnswer_missing_precondition_no_network
    ⟨"algebra", "beginner", some sampleQuestion, "", none, false, []⟩ .transportError "t6" (by rfl)
  exact ⟨h.1, h.2.1⟩

/-- C7: whenever `submitAnswer` fails for any reason (precondition
violation, transport error, non-2xx status, or malformed feedback
payload), the question, selected answer, feedback, topic and difficulty
are unchanged at every later time: only loading and the toast list are
affected. -/
theorem submitAnswer_failure_atomic
    (s : TutorState) (net : NetResult) (tid : String) (t : Nat)
    (hfail : submitPre s = false ∨ submitNetFails net = true) :
    (submitStateAt (submitAnswer s net tid) t).question = s.question ∧
    (submitStateAt (submitAnswer s net tid) t).selectedAnswer = s.selectedAnswer ∧
    (submitStateAt (submitAnswer s net tid) t).feedback = s.feedback ∧
    (submitStateAt (submitAnswer s net tid) t).topic = s.topic ∧
    (submitStateAt (submitAnswer s net tid) t).difficulty = s.difficulty := by
  unfold submitAnswer
  rcases hfail with hpre | hnet
  · simp [hpre, enqueueToast, submitStateAt]
  · cases hpre : submitPre s
    · simp [hpre, enqueueToast, submitStateAt]
    · cases net with
      | transportError =>
          simp [hpre, handleError, enqueueToast, submitStateAt]
      | reply status body =>
          simp only [submitNetFails, Bool.or_eq_true, Bool.not_eq_true'] at hnet
          rcases hnet with hst | hbody
          · simp [hpre, hst, handleError, enqueueToast, submitStateAt]
          · cases hst : statusOk status <;>
              simp [hpre, hst, hbody, handleError, enqueueToast, submitStateAt]

/-- Witness for C7: an HTTP 500 reply to a well-formed submission. -/
theorem submitAnswer_failure_atomic_witness :
    (submitStateAt (submitAnswer answeredState (.reply 500 goodFeedback) "t7") 9999).feedback
      = none ∧
    (submitStateAt (submitAnswer answeredState (.reply 500 goodFeedback) "t7") 9999).question
      = some sampleQuestion := by
  have h := submitAnswer_failure_atomic answeredState (.reply 500 goodFeedback) "t7" 9999
    (Or.inr (by rfl))
  exact ⟨h.2.2.1, h.1⟩

/-- C8: enqueuing a toast appends the new entry at the end with all
existing entries preserved in order; the removal timer is 5000 ms; if
the identifier is fresh, the timer firing restores exactly the previous
state; on an arbitrary later list the firing removes exactly the entries
bearing the identifier, preserves the relative order of the rest, and
touches no other component state. -/
theorem toast_lifecycle
    (s : TutorState) (tid title desc variant : String)
    (hfresh : tid ∉ s.toasts.map Toast.id) :
    (enqueueToast s tid title desc variant).toasts = s.toasts ++ [⟨tid, title, desc, variant⟩] ∧
    toastDismissDelay = 5000 ∧
    applyToastTimer (enqueueToast s tid title desc variant) tid = s ∧
    (∀ s2 : TutorState, ∀ e : Toast,
      e ∈ (applyToastTimer s2 tid).toasts ↔ e ∈ s2.toasts ∧ e.id ≠ tid) ∧
    (∀ s2 : TutorState,
      (applyToastTimer s2 tid).toasts.Sublist s2.toasts ∧
      (applyToastTimer s2 tid).topic = s2.topic ∧
      (applyToastTimer s2 tid).difficulty = s2.difficulty ∧
      (applyToastTimer s2 tid).question = s2.question ∧
      (applyToastTimer s2 tid).selectedAnswer = s2.selectedAnswer ∧
      (applyToastTimer s2 tid).feedback = s2.feedback ∧
      (applyToastTimer s2 tid).loading = s2.loading) := by
  refine ⟨rfl, rfl, ?_, ?_, ?_⟩
  · have hkeep : toastTimerFire (s.toasts ++ [⟨tid, title, desc, variant⟩]) tid = s.toasts := by
      unfold toastTimerFire
      rw [List.filter_append]
      have h1 : s.toasts.filter (fun t => t.id != tid) = s.toasts := by
        refine List.filter_eq_self.mpr (fun t ht => ?_)
        refine bne_iff_ne.mpr (fun hEq => ?_)
        exact hfresh (hEq ▸ List.mem_map_of_mem Toast.id ht)
      simp [h1]
    unfold applyToastTimer enqueueToast
    rw [hkeep]
  · intro s2 e
    simp [applyToastTimer, toastTimerFire, List.mem_filter, bne_iff_ne]
  · intro s2
    exact ⟨List.filter_sublist s2.toasts, rfl, rfl, rfl, rfl, rfl, rfl⟩

/-- A state holding one toast with identifier "a". -/
def toastState0 : TutorState :=
  ⟨"", "", none, "", none, false, [⟨"a", "Error", "first notice", "destructive"⟩]⟩

/-- Witness for C8: enqueue a fresh toast "b" next to "a"; its timer
firing restores the previous state exactly. -/
theorem toast_lifecycle_witness :
    applyToastTimer (enqueueToast toastState0 "b" "Error" "second notice" "destructive") "b"
      = toastState0 ∧
    toastDismissDelay = 5000 := by
  have h := toast_lifecycle toastState0 "b" "Error" "second notice" "destructive" (by decide)
  exact ⟨h.2.2.1, h.2.1⟩

/-- `fetchQuestion` never changes topic or difficulty. -/
theorem fetchQuestion_keeps_selection
    (s : TutorState) (net : NetResult) (tid : String) :
    (fetchQuestion s net tid).state.topic = s.topic ∧
    (fetchQuestion s net tid).state.difficulty = s.difficulty := by
  unfold fetchQuestion
  cases hf : fetchPre s
  · simp [enqueueToast]
  · cases net with
    | transportError => simp [handleError, enqueueToast]
    | reply status body =>
        cases hst : statusOk status
        · simp [hst, handleError, enqueueToast]
        · cases hvq : validQuestion body <;> simp [hst, hvq, handleError, enqueueToast]

/-- `submitAnswer` never changes topic or difficulty, at any later time. -/
theorem submitAnswer_keeps_selection
    (s : TutorState) (net : NetResult) (tid : String) (t : Nat) :
    (submitStateAt (submitAnswer s net tid) t).topic = s.topic ∧
    (submitStateAt (submitAnswer s net tid) t).difficulty = s.difficulty := by
  unfold submitAnswer
  cases hsp : submitPre s
  · simp [enqueueToast, submitStateAt]
  · cases net with
    | transportError => simp [handleError, enqueueToast, submitStateAt]
    | reply status body =>
        cases hst : statusOk status
        · simp [hst, handleError, enqueueToast, submitStateAt]
        · cases hvf : validFeedback body
          · simp [hst, hvf, handleError, enqueueToast, submitStateAt]
          · simp only [hst, hvf, Bool.not_true, Bool.false_eq_true, if_false, submitStateAt]
            split <;> exact ⟨rfl, rfl⟩

/-- C9: every invocation of Request Question or Submit Answer, on every
outcome and at every later time, leaves the topic and difficulty
selection unchanged. -/
theorem selection_frame_invariant
    (s : TutorState) (net : NetResult) (tid : String) (t : Nat) :
    (fetchQuestion s net tid).state.topic = s.topic ∧
    (fetchQuestion s net tid).state.difficulty = s.difficulty ∧
    (submitStateAt (submitAnswer s net tid) t).topic = s.topic ∧
    (submitStateAt (submitAnswer s net tid) t).difficulty = s.difficulty :=
  ⟨(fetchQuestion_keeps_selection s net tid).1,
   (fetchQuestion_keeps_selection s net tid).2,
   (submitAnswer_keeps_selection s net tid t).1,
   (submitAnswer_keeps_selection s net tid t).2⟩

/-- A question payload whose id is the (falsy) number 0. -/
def zeroIdQuestion : Json :=
  .obj [("id", .num 0), ("question_text", .str "What is 2 plus 2?"), ("options", .arr [])]

/-- A question payload whose question text is the (falsy) empty string. -/
def emptyTextQuestion : Json :=
  .obj [("id", .num 7), ("question_text", .str ""), ("options", .arr [])]

/-- C10: a 200 question reply with id 0 (present, together with
non-empty text and an array options field) is rejected by the truthiness
validation: the error toast is raised and the question state is left
unchanged; likewise a reply with an empty question text. -/
theorem fetchQuestion_rejects_zero_id :
    validQuestion zeroIdQuestion = false ∧
    validQuestion emptyTextQuestion = false ∧
    (fetchQuestion readyState (.reply 200 zeroIdQuestion) "t10").state.question
      = readyState.question ∧
    (fetchQuestion readyState (.reply 200 zeroIdQuestion) "t10").state.toasts =
      readyState.toasts ++
        [⟨"t10", "Error", "Failed to fetch question. Please try again.", "destructive"⟩] ∧
    (fetchQuestion readyState (.reply 200 emptyTextQuestion) "t11").state.question
      = readyState.question := by
  exact ⟨rfl, rfl, rfl, rfl, rfl⟩
